import Mathlib

/-!
Verification of the SatoshisEndgame surveillance pipeline.

This file shallowly embeds the core of the repository in Lean 4:

* `src/services/quantum_detector.py` — the emergency-pattern detector
  (`QuantumEmergencyDetector`): dormant-wallet surge, coordinated movement,
  value concentration, statistical burst, and the `_calculate_severity`
  scoring heuristic.
* `src/services/block_monitor.py` — the block monitor
  (`BlockMonitorService`): address extraction from blocks, tracked-set
  intersection, and the `check_new_blocks` state machine.
* `src/core/blockchain.py` — the provider coordinator
  (`BlockchainManager`): ordered-adapter fallback, request counters,
  `get_request_stats`, and the placeholder `get_block`.
* `src/services/notification_service.py` — the alert gate
  (`DiscordNotificationService._should_send_alert`).

Modelling conventions:
* Python `datetime` values are microseconds since an arbitrary epoch (`Nat`);
  `timedelta` values are microseconds, or seconds as `ℚ` where the source
  manipulates fractional seconds.
* Python floats are modelled as exact rationals `ℚ`.  The single genuinely
  irrational intermediate (the numpy standard deviation inside the burst
  detector) is confined to the stored confidence value; every branching
  decision of the source is reproduced exactly via squared comparisons.
* Fallible operations return `Option`/`Except`; a caught Python exception
  corresponds to the `none`/`.error` branch.
* Network and database I/O is abstracted as oracle parameters (the tip
  height reported by the providers, the block fetched at a height, the
  per-address movement analysis result), so that the control flow of the
  embedded functions is exactly that of the source.
-/

namespace SatoshisEndgame

/-! ## Time helpers

A `datetime` is a count of microseconds.  `minuteOf`, `secondOf` and
`microOf` are the Python `datetime.minute` / `.second` / `.microsecond`
component accessors. -/

def microsPerSecond : Nat := 1000000

def microsPerMinute : Nat := 60000000

/-- The `minute` component (0–59) of a microsecond timestamp. -/
def minuteOf (t : Nat) : Nat := t / microsPerMinute % 60

/-- The `second` component (0–59) of a microsecond timestamp. -/
def secondOf (t : Nat) : Nat := t / microsPerSecond % 60

/-- The `microsecond` component (0–999999) of a microsecond timestamp. -/
def microOf (t : Nat) : Nat := t % microsPerSecond

/-! ## Detector configuration (`src/config/settings.py` defaults and the
constants fixed in `QuantumEmergencyDetector.__init__`) -/

structure DetectorConfig where
  /-- `dormancy_threshold_days` setting; default 365. -/
  dormancyThresholdDays : Nat := 365
  /-- `emergency_time_window_minutes` setting; default 30. -/
  emergencyWindowMinutes : Nat := 30
  /-- `min_dormant_wallets_for_alert` setting; default 5. -/
  minWalletsThreshold : Nat := 5
deriving DecidableEq

/-- The settings defaults (`Settings` field defaults in `settings.py`). -/
def defaultConfig : DetectorConfig := {}

/-! ## Detector data model (`quantum_detector.py` dataclasses) -/

/-- `WalletActivity` dataclass.  `transaction_time` and the optional
`last_activity_before` are microsecond timestamps. -/
structure WalletActivity where
  address : String
  transaction_time : Nat
  amount : Int
  balance : Int
  dormancy_days : Nat
  last_activity_before : Option Nat
  vulnerability_type : String
deriving DecidableEq

/-- `EmergencyPattern` dataclass.  `confidence` is a rational in `[0,1]`;
`time_window` is a duration in seconds (`ℚ`, as the source mixes whole-minute
windows with fractional-second spans).  The free-form `metadata` mapping is
diagnostic context only (spec §9 keeps it an open scalar mapping) and is not
modelled; no claim refers to it. -/
structure EmergencyPattern where
  pattern_type : String
  severity : String
  confidence : ℚ
  affected_wallets : List String
  total_value : Int
  time_window : ℚ
deriving DecidableEq

/-! ## numpy helpers: exact rational mean and population variance -/

/-- `np.mean` on a list of rationals (callers guarantee nonemptiness; on `[]`
Lean's division by zero yields `0` where numpy would produce `nan`). -/
def ratMean (l : List ℚ) : ℚ := l.sum / l.length

/-- `np.var`: population variance, the mean of squared deviations. -/
def ratVar (l : List ℚ) : ℚ :=
  (l.map (fun x => (x - ratMean l) ^ 2)).sum / l.length

/-! ## `_calculate_severity` -/

/-- Tail of `_calculate_severity`: map the additive score to a severity
string. -/
def severityOfScore (score : Nat) : String :=
  if 80 ≤ score then "CRITICAL"
  else if 60 ≤ score then "HIGH"
  else if 40 ≤ score then "MEDIUM"
  else "LOW"

/-- `QuantumEmergencyDetector._calculate_severity`: three independently
capped additive factors (wallet count, total value in BTC, average dormancy
in years), then `severityOfScore`. -/
def calculateSeverity (walletCount : Nat) (totalValueBtc avgDormancyYears : ℚ) : String :=
  severityOfScore
    ((if 20 ≤ walletCount then 40
      else if 10 ≤ walletCount then 30
      else if 5 ≤ walletCount then 20
      else 10)
     + (if (10000 : ℚ) ≤ totalValueBtc then 40
        else if (1000 : ℚ) ≤ totalValueBtc then 30
        else if (100 : ℚ) ≤ totalValueBtc then 20
        else 10)
     + (if (10 : ℚ) ≤ avgDormancyYears then 20
        else if (5 : ℚ) ≤ avgDormancyYears then 15
        else if (2 : ℚ) ≤ avgDormancyYears then 10
        else 5))

/-! ## `_group_by_time_window`

The source "rounds down" a transaction time with

  `window_start = t - timedelta(minutes=t.minute % window.total_seconds() / 60,
                                seconds=t.second, microseconds=t.microsecond)`

Python operator precedence parses the first argument as
`(t.minute % window.total_seconds()) / 60`.  Since `t.minute < 60` and the
window is at least one minute, the modulus is the identity, so the subtracted
duration is `t.minute` **seconds** (not minutes) plus `t.second` seconds plus
the microseconds — the key is *not* the timestamp truncated to the window
boundary.  The embedding reproduces the expression exactly:
`(minute % windowSeconds)/60` minutes equals `(minute % windowSeconds)`
seconds. -/

/-- The dictionary key `window_start` computed for a timestamp, for a window
of `windowSeconds = window.total_seconds()` seconds. -/
def bucketKey (windowSeconds : Nat) (t : Nat) : Int :=
  (t : Int) -
    ((minuteOf t % windowSeconds) * microsPerSecond
      + secondOf t * microsPerSecond + microOf t)

/-- `window_minutes or self.emergency_window.total_seconds() / 60`: Python
`or` falls back on `None` (and on a zero argument, both being falsy). -/
def windowMinutesOr (cfg : DetectorConfig) (windowMinutes : Option Nat) : Nat :=
  match windowMinutes with
  | some m => if m = 0 then cfg.emergencyWindowMinutes else m
  | none => cfg.emergencyWindowMinutes

/-- Insert an element into an insertion-ordered association list of groups,
appending to the existing group for `k` or creating a new group at the end —
the behaviour of `defaultdict(list)` under Python's insertion-ordered
dictionaries. -/
def addToGroup {κ : Type} [DecidableEq κ] (groups : List (κ × List WalletActivity))
    (k : κ) (a : WalletActivity) : List (κ × List WalletActivity) :=
  match groups with
  | [] => [(k, [a])]
  | (k', g) :: rest =>
      if k' = k then (k', g ++ [a]) :: rest else (k', g) :: addToGroup rest k a

/-- `QuantumEmergencyDetector._group_by_time_window`. -/
def groupByTimeWindow (cfg : DetectorConfig) (activities : List WalletActivity)
    (windowMinutes : Option Nat) : List (Int × List WalletActivity) :=
  let windowSeconds := windowMinutesOr cfg windowMinutes * 60
  activities.foldl (fun gs a => addToGroup gs (bucketKey windowSeconds a.transaction_time) a) []

/-! ## `_detect_dormant_wallet_surge` -/

/-- The dormancy filter `act.dormancy_days >= self.dormancy_threshold.days`. -/
def dormantFilter (cfg : DetectorConfig) (activities : List WalletActivity) :
    List WalletActivity :=
  activities.filter (fun a => cfg.dormancyThresholdDays ≤ a.dormancy_days)

/-- The pattern built for the first qualifying time bucket (the
`window_start`-dependent metadata entries are diagnostic only and not
modelled). -/
def mkSurgePattern (cfg : DetectorConfig) (g : List WalletActivity) : EmergencyPattern :=
  let totalValue : Int := (g.map (fun a => a.balance)).sum
  let avgDormancy : ℚ := ratMean (g.map (fun a => (a.dormancy_days : ℚ)))
  { pattern_type := "dormant_wallet_surge"
  , severity := calculateSeverity g.length ((totalValue : ℚ) / 100000000) (avgDormancy / 365)
  , confidence := min (95 / 100 : ℚ) ((g.length : ℚ) / 10)
  , affected_wallets := g.map (fun a => a.address)
  , total_value := totalValue
  , time_window := (cfg.emergencyWindowMinutes : ℚ) * 60 }

/-- `QuantumEmergencyDetector._detect_dormant_wallet_surge`: filter dormant
activities, require at least the minimum wallet count overall, then return a
pattern for the first time bucket reaching the minimum count. -/
def detectDormantWalletSurge (cfg : DetectorConfig) (activities : List WalletActivity) :
    Option EmergencyPattern :=
  let dormant := dormantFilter cfg activities
  if dormant.length < cfg.minWalletsThreshold then none
  else
    match (groupByTimeWindow cfg dormant none).find?
        (fun g => cfg.minWalletsThreshold ≤ g.2.length) with
    | some g => some (mkSurgePattern cfg g.2)
    | none => none

/-! ## `_detect_coordinated_movements` -/

/-- The per-bucket test in `_detect_coordinated_movements`: skip buckets with
fewer than 3 activities; compute `np.var(amounts)/np.mean(amounts)**2` (with
`float('inf')` — which fails every `< 0.1` test — when the mean is not
positive); fire when the normalised variance is below `0.1` and the bucket has
at least 5 activities. -/
def coordGroupQualifies (g : List WalletActivity) : Bool :=
  if g.length < 3 then false
  else
    let amounts := g.map (fun a => (a.amount : ℚ))
    let m := ratMean amounts
    if 0 < m then
      decide (ratVar amounts / m ^ 2 < 1 / 10) && decide (5 ≤ g.length)
    else false

/-- The coordinated-movement pattern (amount metadata not modelled). -/
def mkCoordPattern (g : List WalletActivity) : EmergencyPattern :=
  { pattern_type := "coordinated_movement"
  , severity := "HIGH"
  , confidence := 8 / 10
  , affected_wallets := g.map (fun a => a.address)
  , total_value := (g.map (fun a => a.balance)).sum
  , time_window := 10 * 60 }

/-- `QuantumEmergencyDetector._detect_coordinated_movements`. -/
def detectCoordinatedMovements (cfg : DetectorConfig) (activities : List WalletActivity) :
    Option EmergencyPattern :=
  if activities.length < 3 then none
  else
    match (groupByTimeWindow cfg activities (some 10)).find?
        (fun g => coordGroupQualifies g.2) with
    | some g => some (mkCoordPattern g.2)
    | none => none

/-! ## `_detect_value_concentration` -/

/-- `high_value_threshold = 100 * 100_000_000` satoshis (100 BTC). -/
def highValueThreshold : Int := 100 * 100000000

/-- The high-value filter `act.balance >= high_value_threshold`. -/
def highValueActivities (activities : List WalletActivity) : List WalletActivity :=
  activities.filter (fun a => highValueThreshold ≤ a.balance)

/-- Python `max` over a (nonempty) list of naturals. -/
def natListMax (l : List Nat) : Nat := l.foldl max 0

/-- Python `min` over a (nonempty) list of naturals. -/
def natListMin : List Nat → Nat
  | [] => 0
  | x :: xs => xs.foldl min x

/-- `max(transaction_time) - min(transaction_time)` over a list of
activities, in microseconds. -/
def hvTimeSpan (l : List WalletActivity) : Nat :=
  natListMax (l.map (fun a => a.transaction_time))
    - natListMin (l.map (fun a => a.transaction_time))

/-- `QuantumEmergencyDetector._detect_value_concentration`. -/
def detectValueConcentration (cfg : DetectorConfig) (activities : List WalletActivity) :
    Option EmergencyPattern :=
  if (highValueActivities activities).length < 3 then none
  else if hvTimeSpan (highValueActivities activities)
      ≤ cfg.emergencyWindowMinutes * 60 * microsPerSecond then
    some { pattern_type := "high_value_concentration"
         , severity := "CRITICAL"
         , confidence := 9 / 10
         , affected_wallets := (highValueActivities activities).map (fun a => a.address)
         , total_value := ((highValueActivities activities).map (fun a => a.balance)).sum
         , time_window := (hvTimeSpan (highValueActivities activities) : ℚ) / 1000000 }
  else none

/-! ## `_detect_statistical_anomalies` -/

/-- Stable insertion of an activity into a list sorted by ascending
`transaction_time` (elements already present that compare equal stay in
front, matching Python's stable `sorted`). -/
def insertByTime (a : WalletActivity) : List WalletActivity → List WalletActivity
  | [] => [a]
  | b :: rest =>
      if b.transaction_time ≤ a.transaction_time then b :: insertByTime a rest
      else a :: b :: rest

/-- `sorted(wallet_acts, key=lambda x: x.transaction_time)` (stable). -/
def sortByTime (l : List WalletActivity) : List WalletActivity :=
  l.foldl (fun acc a => insertByTime a acc) []

/-- Consecutive inter-arrival times in seconds:
`(t[i] - t[i-1]).total_seconds()`. -/
def interDiffs (ts : List Nat) : List ℚ :=
  (ts.zip ts.tail).map (fun p => ((p.2 : ℚ) - (p.1 : ℚ)) / 1000000)

/-- The stored burst confidence `min(0.9, zscore / 5)` with
`zscore = (300 - mean) / np.std(diffs)`.  The standard deviation is an
irrational square root in general; the floating-point value the source stores
is modelled by `Rat.sqrt` of the exact variance.  Every branching decision of
the source is made exactly (see `burstPatternFor`); no claim depends on this
stored value. -/
def burstConfidence (meanDiff variance : ℚ) : ℚ :=
  min (9 / 10) ((300 - meanDiff) / (5 * Rat.sqrt variance))

/-- The per-wallet body of `_detect_statistical_anomalies`: skip wallets with
fewer than 2 activities; for wallets with at least 5 activities, sort by
time, form consecutive differences, and emit a `transaction_burst` pattern
when `std > 0`, `mean < 300` seconds and the z-score `(300 - mean)/std`
exceeds the fixed threshold `3.0`.  With `mean < 300` and `std > 0`, the
z-score test `(300 - mean)/std > 3` is decided exactly as
`9 * variance < (300 - mean)^2`, and `std > 0` as `0 < variance`. -/
def burstPatternFor (g : List WalletActivity) : Option EmergencyPattern :=
  if g.length < 2 then none
  else if 5 ≤ g.length then
    match g with
    | [] => none
    | a0 :: _ =>
      let diffs := interDiffs ((sortByTime g).map (fun a => a.transaction_time))
      if diffs.isEmpty then none
      else
        let meanDiff := ratMean diffs
        let variance := ratVar diffs
        if 0 < variance ∧ meanDiff < 300 ∧ 9 * variance < (300 - meanDiff) ^ 2 then
          some { pattern_type := "transaction_burst"
               , severity := "MEDIUM"
               , confidence := burstConfidence meanDiff variance
               , affected_wallets := [a0.address]
               , total_value := a0.balance
               , time_window := meanDiff * g.length }
        else none
  else none

/-- `QuantumEmergencyDetector._detect_statistical_anomalies`: group the batch
by wallet address (insertion-ordered, like `defaultdict(list)`) and collect
the burst patterns. -/
def detectStatisticalAnomalies (activities : List WalletActivity) :
    List EmergencyPattern :=
  (activities.foldl (fun gs a => addToGroup gs a.address a) []).foldl
    (fun ps g =>
      match burstPatternFor g.2 with
      | some p => ps ++ [p]
      | none => ps) []

/-- `QuantumEmergencyDetector.analyze_recent_activity`: run the four
detectors in order and concatenate their outputs. -/
def analyzeRecentActivity (cfg : DetectorConfig) (activities : List WalletActivity) :
    List EmergencyPattern :=
  (detectDormantWalletSurge cfg activities).toList
    ++ (detectCoordinatedMovements cfg activities).toList
    ++ (detectValueConcentration cfg activities).toList
    ++ detectStatisticalAnomalies activities

/-! ## Block data model (`block_monitor.py` / `blockchain.py` block dicts)

A block is the dictionary shape consumed by `_extract_addresses_from_block`
and `_analyze_address_movement`: transactions with input and output entries
whose `address` key may be missing.  Python tests presence with the truthy
`inp.get('address')`, so a missing key and an empty string are both treated
as "no address". -/

structure TxEntry where
  address : Option String
  value : Int
deriving DecidableEq

structure BlockTx where
  hash : String
  inputs : List TxEntry
  outputs : List TxEntry
deriving DecidableEq

structure Block where
  height : Nat
  timestamp : Nat
  transactions : List BlockTx
deriving DecidableEq

/-! ## `BlockMonitorService._extract_addresses_from_block` -/

/-- One loop iteration: `if entry.get('address'): addresses.add(entry['address'])`.
Python truthiness skips both a missing and an empty-string address. -/
def addEntryAddr (s : Finset String) (e : TxEntry) : Finset String :=
  match e.address with
  | some a => if a = "" then s else insert a s
  | none => s

/-- The two inner loops of `_extract_addresses_from_block` for one
transaction: inputs first, then outputs, into the same set. -/
def addTxAddrs (s : Finset String) (tx : BlockTx) : Finset String :=
  tx.outputs.foldl addEntryAddr (tx.inputs.foldl addEntryAddr s)

/-- `BlockMonitorService._extract_addresses_from_block`. -/
def extractAddressesFromBlock (b : Block) : Finset String :=
  b.transactions.foldl addTxAddrs ∅

/-- `active_dormant = block_addresses & self.dormant_addresses` in
`_process_block`. -/
def activeDormant (b : Block) (tracked : Finset String) : Finset String :=
  extractAddressesFromBlock b ∩ tracked

/-- The addresses for which `_process_block` invokes
`_analyze_address_movement`: every element of `active_dormant`, once each
(the iteration order of a Python set is unspecified; the embedding fixes the
sorted order). -/
def attemptedAddresses (b : Block) (tracked : Finset String) : List String :=
  (activeDormant b tracked).sort (fun x y => x ≤ y)

/-- `BlockMonitorService._process_block`, with the per-address movement
analysis abstracted as an oracle `analyze` (the source's
`_analyze_address_movement` performs provider I/O; a raised-and-caught
exception or a `None` result are both `none`, and such addresses are skipped
without aborting the remaining matches).  A block that could not be fetched
(`none`) yields no movements, as does a block-level exception. -/
def processBlock {μ : Type} (tracked : Finset String) (analyze : String → Option μ) :
    Option Block → List μ
  | none => []
  | some b => (attemptedAddresses b tracked).filterMap analyze

/-! ## `BlockMonitorService.check_new_blocks` -/

/-- Monitor state: the in-memory tracked-address projection and
`last_block_height`. -/
structure MonitorState where
  dormantAddresses : Finset String
  lastBlockHeight : Option Nat
deriving DecidableEq

/-- The Python truthiness test `if not self.last_block_height`: `None` and
height `0` are both treated as "unset". -/
def heightTruthy : Option Nat → Bool
  | none => false
  | some h => h != 0

/-- One call environment for `check_new_blocks`: the tip height reported by
`get_latest_block_height` (`none` when every provider failed), the block
fetched per height, and the per-address movement analysis. -/
structure CallEnv (μ : Type) where
  tip : Option Nat
  getBlock : Nat → Option Block
  analyze : String → Option μ

/-- `BlockMonitorService.check_new_blocks`.

* If `last_block_height` is falsy it is overwritten with the reported tip
  (which may itself be `none`) and the call returns no movements.
* Otherwise, if the tip is `none`, the comparison
  `current_height > self.last_block_height` raises a `TypeError` that the
  surrounding `except` swallows, returning the movements accumulated so far
  (none) with the state unchanged.
* Otherwise every height in `(last, tip]` is processed in ascending order and
  `last_block_height` advances to the tip. -/
def checkNewBlocks {μ : Type} (env : CallEnv μ) (s : MonitorState) :
    List μ × MonitorState :=
  if heightTruthy s.lastBlockHeight then
    match env.tip, s.lastBlockHeight with
    | none, _ => ([], s)
    | some _, none => ([], s)
    | some t, some h =>
        if h < t then
          (((List.range' (h + 1) (t - h)).map
              (fun hh => processBlock s.dormantAddresses env.analyze (env.getBlock hh))).flatten,
           { s with lastBlockHeight := some t })
        else ([], s)
  else ([], { s with lastBlockHeight := env.tip })

/-- The state transition of one `check_new_blocks` call. -/
def monitorStep {μ : Type} (s : MonitorState) (env : CallEnv μ) : MonitorState :=
  (checkNewBlocks env s).2

/-- The monitor state after a sequence of `check_new_blocks` calls. -/
def runMonitor {μ : Type} (envs : List (CallEnv μ)) (s : MonitorState) : MonitorState :=
  envs.foldl monitorStep s

/-- The numeric content of `last_block_height` (`0` when unset); the
monotonicity invariant is phrased through this measure. -/
def heightMeasure (s : MonitorState) : Nat :=
  s.lastBlockHeight.getD 0

/-! ## Provider coordinator (`blockchain.py`, `BlockchainManager`)

Each per-adapter call outcome is an `Except Unit payload`: `.error ()` is a
raised `BlockchainAPIError` (the only exception type the coordinator
catches), `.ok` is a successful response.  The coordinator walks the ordered
outcome list exactly as the `for api in self.apis` loops do. -/

/-- The `request_counts` dictionary (`{"successful": 0, "failed": 0,
"total": 0}`; the `total` key is initialised but never updated by the
source). -/
structure RequestCounts where
  successful : Nat
  failed : Nat
  total : Nat
deriving DecidableEq

/-- `AddressInfo` dataclass (the metadata mapping is provider-specific
diagnostic context and is not modelled). -/
structure AddressInfo where
  address : String
  balance : Int
  transaction_count : Nat
  last_activity : Option Nat
  is_p2pk : Bool
  is_reused_p2pkh : Bool
deriving DecidableEq

/-- `Transaction` dataclass of `blockchain.py` (adapters currently fill
`inputs`/`outputs` with empty lists). -/
structure ProviderTx where
  txid : String
  block_time : Nat
  inputs : List TxEntry
  outputs : List TxEntry
  total_value : Int
deriving DecidableEq

/-- `BlockchainManager.get_address_info`: first successful adapter wins and
increments `successful`; only when every adapter raises does the call
increment `failed` and return `None`. -/
def getAddressInfo (results : List (Except Unit AddressInfo)) (c : RequestCounts) :
    Option AddressInfo × RequestCounts :=
  match results with
  | [] => (none, { c with failed := c.failed + 1 })
  | .ok r :: _ => (some r, { c with successful := c.successful + 1 })
  | .error _ :: rest => getAddressInfo rest c

/-- `BlockchainManager.get_addresses_batch` for an input batch of `n`
addresses: a successful adapter adds `n` to `successful` and returns its
(possibly partial) result list; total failure adds `n` to `failed` and
returns `[]`. -/
def getAddressesBatch (n : Nat) (results : List (Except Unit (List AddressInfo)))
    (c : RequestCounts) : List AddressInfo × RequestCounts :=
  match results with
  | [] => ([], { c with failed := c.failed + n })
  | .ok rs :: _ => (rs, { c with successful := c.successful + n })
  | .error _ :: rest => getAddressesBatch n rest c

/-- `BlockchainManager.get_recent_transactions`: same fallback walk, no
statistics, `[]` on total failure. -/
def getRecentTransactions (results : List (Except Unit (List ProviderTx))) :
    List ProviderTx :=
  match results with
  | [] => []
  | .ok rs :: _ => rs
  | .error _ :: rest => getRecentTransactions rest

/-- `BlockchainManager.get_block`: the loop body is a placeholder that
returns `{"height": h, "timestamp": datetime.now(), "transactions": []}`
without contacting any provider, so the first adapter always "succeeds" and
`request_counts` is never touched; with no adapters configured the loop falls
through to `None`.  `apis` carries the adapter class names, `now` the
wall-clock timestamp. -/
def getBlockMgr (apis : List String) (now : Nat) (height : Nat) (c : RequestCounts) :
    Option Block × RequestCounts :=
  match apis with
  | [] => (none, c)
  | _ :: _ => (some { height := height, timestamp := now, transactions := [] }, c)

/-- `BlockchainManager.get_latest_block_height`: the loop body is the
placeholder `return 820000`; with no adapters the call returns `None`. -/
def getLatestBlockHeight (apis : List String) : Option Nat :=
  match apis with
  | [] => none
  | _ :: _ => some 820000

/-- Python `round` (banker's rounding, half to even), idealised over `ℚ`. -/
def roundHalfEven (x : ℚ) : Int :=
  let f := ⌊x⌋
  let r := x - f
  if r < 1 / 2 then f
  else if 1 / 2 < r then f + 1
  else if f % 2 = 0 then f else f + 1

/-- `round(x, 2)`. -/
def roundTo2 (x : ℚ) : ℚ := (roundHalfEven (x * 100) : ℚ) / 100

/-- The dictionary returned by `BlockchainManager.get_request_stats`:
aggregate counters only — there is no per-provider success/failure
attribution, merely the ordered adapter names. -/
structure RequestStats where
  total_requests : Nat
  successful : Nat
  failed : Nat
  success_rate : ℚ
  primary_api : String
  fallback_apis : List String
deriving DecidableEq

/-- `BlockchainManager.get_request_stats`. -/
def getRequestStats (apis : List String) (c : RequestCounts) : RequestStats :=
  let total := c.successful + c.failed
  { total_requests := total
  , successful := c.successful
  , failed := c.failed
  , success_rate :=
      if 0 < total then roundTo2 ((c.successful : ℚ) / (total : ℚ) * 100) else 0
  , primary_api := apis.headD "None"
  , fallback_apis := apis.tail }

/-! ## Alert gate (`notification_service.py`,
`DiscordNotificationService._should_send_alert`) -/

/-- The fields of `NotificationAlert` that the deduplication key reads
(titles, descriptions, metadata and timestamps do not enter the key). -/
structure NotificationAlert where
  alert_type : String
  severity : String
  wallet_addresses : List String
  total_value : Int
  pattern : Option String
deriving DecidableEq

/-- `f"{alert.alert_type}:{alert.pattern}:{len(alert.wallet_addresses)}"`;
a `None` pattern prints as the string `"None"`. -/
def alertKey (a : NotificationAlert) : String :=
  a.alert_type ++ ":" ++ (match a.pattern with | some p => p | none => "None")
    ++ ":" ++ toString a.wallet_addresses.length

/-- Lookup in the `recent_alerts` dictionary, modelled as an association
list. -/
def lookupAlert : List (String × Nat) → String → Option Nat
  | [], _ => none
  | (k, t) :: rest, key => if k = key then some t else lookupAlert rest key

/-- `self.recent_alerts[alert_key] = now`: overwrite in place or append. -/
def setAlert : List (String × Nat) → String → Nat → List (String × Nat)
  | [], key, v => [(key, v)]
  | (k, t) :: rest, key, v =>
      if k = key then (key, v) :: rest else (k, t) :: setAlert rest key v

/-- `DiscordNotificationService._should_send_alert` at wall-clock time `now`
(microseconds; the source calls `datetime.utcnow()` twice in immediate
succession, modelled as one instant).  A suppressed alert leaves
`recent_alerts` untouched — the cooldown clock is not reset; a delivered
alert records `now` under its key. -/
def shouldSendAlert (cooldown : Nat) (recent : List (String × Nat))
    (a : NotificationAlert) (now : Nat) : Bool × List (String × Nat) :=
  match lookupAlert recent (alertKey a) with
  | some t =>
      if (now : Int) - (t : Int) < (cooldown : Int) then (false, recent)
      else (true, setAlert recent (alertKey a) now)
  | none => (true, setAlert recent (alertKey a) now)

/-- The default cooldown: `alert_cooldown_minutes = 30`, in microseconds. -/
def defaultCooldownMicros : Nat := 30 * microsPerMinute

/-! ## Spec-side definitions

These follow the wording of the specification's claims, to be compared with
the source-derived definitions above. -/

/-- Spec-side reading of "extractAddresses(B)": an address `a` is referenced
by the block when some input or output entry of some transaction carries it.
An entry "without an address" is one whose address value is missing or empty
(the source tests the value with Python truthiness, under which a missing key
and the empty string are the same "no address" case; tracked Bitcoin
addresses are never the empty string). -/
def blockMentionsAddress (b : Block) (a : String) : Prop :=
  a ≠ "" ∧ ∃ tx ∈ b.transactions,
    (∃ e ∈ tx.inputs, e.address = some a) ∨ (∃ e ∈ tx.outputs, e.address = some a)

/-- Spec-side wallet-count factor: "10 if n<5, 20 if 5≤n<10, 30 if 10≤n<20,
40 if n≥20". -/
def walletScoreSpec (n : Nat) : Nat :=
  if n < 5 then 10 else if n < 10 then 20 else if n < 20 then 30 else 40

/-- Spec-side value factor: "10 if v<100, 20 if 100≤v<1000,
30 if 1000≤v<10000, 40 if v≥10000". -/
def valueScoreSpec (v : ℚ) : Nat :=
  if v < 100 then 10 else if v < 1000 then 20 else if v < 10000 then 30 else 40

/-- Spec-side dormancy factor: "5 if d<2, 10 if 2≤d<5, 15 if 5≤d<10,
20 if d≥10". -/
def dormancyScoreSpec (d : ℚ) : Nat :=
  if d < 2 then 5 else if d < 5 then 10 else if d < 10 then 15 else 20

/-- Spec-side severity mapping: "CRITICAL if s≥80, HIGH if 60≤s<80,
MEDIUM if 40≤s<60, else LOW". -/
def severityOfScoreSpec (s : Nat) : String :=
  if 80 ≤ s then "CRITICAL"
  else if 60 ≤ s then "HIGH"
  else if 40 ≤ s then "MEDIUM"
  else "LOW"

/-! ## Concrete inputs for the dormant-surge claim (C2)

Five `WalletActivity` records with `dormancy_days = 3650` (ten years),
balances summing to 600 BTC (`6×10^10` satoshis) and transaction times all
inside the single aligned 30-minute window starting at the epoch: at minutes
0, 5, 10, 15 and 20. -/

def surgeAct (addr : String) (t : Nat) (amt bal : Int) : WalletActivity :=
  { address := addr, transaction_time := t, amount := amt, balance := bal
  , dormancy_days := 3650, last_activity_before := none
  , vulnerability_type := "P2PK" }

/-- The claim's scenario with the five transaction times spread at
five-minute marks (00:00, 00:05, 00:10, 00:15, 00:20) within one 30-minute
window. -/
def surgeSpreadActs : List WalletActivity :=
  [ surgeAct "addr1" 0 1 59600000000
  , surgeAct "addr2" 300000000 1 100000000
  , surgeAct "addr3" 600000000 1 100000000
  , surgeAct "addr4" 900000000 1 100000000
  , surgeAct "addr5" 1200000000 1000000 100000000 ]

/-- The same five records with all transaction times identical (00:00). -/
def surgeSameTimeActs : List WalletActivity :=
  [ surgeAct "addr1" 0 1 59600000000
  , surgeAct "addr2" 0 1 100000000
  , surgeAct "addr3" 0 1 100000000
  , surgeAct "addr4" 0 1 100000000
  , surgeAct "addr5" 0 1000000 100000000 ]

/-- Three activities holding at least 100 BTC each, spanning five minutes. -/
def hvActs : List WalletActivity :=
  [ surgeAct "hv1" 0 1 10000000000
  , surgeAct "hv2" 120000000 1 10000000000
  , surgeAct "hv3" 300000000 1 10000000000 ]

/-- The concrete alert used by the C5 witness. -/
def c5Alert : NotificationAlert :=
  { alert_type := "quantum_emergency"
  , severity := "CRITICAL"
  , wallet_addresses := ["addrA", "addrB"]
  , total_value := 12000000000
  , pattern := some "dormant_wallet_surge" }

/-- A call environment with the given tip, no fetchable blocks and an
analysis that always fails — used by the concrete witnesses below. -/
def unitEnv (tip : Option Nat) : CallEnv Unit :=
  { tip := tip, getBlock := fun _ => none, analyze := fun _ => none }

/-- A monitor state with no tracked addresses, used by the witnesses. -/
def monState (last : Option Nat) : MonitorState :=
  { dormantAddresses := ∅, lastBlockHeight := last }

/-! ## Helper lemmas -/

theorem mem_addEntryAddr (s : Finset String) (e : TxEntry) (a : String) :
    a ∈ addEntryAddr s e ↔ a ∈ s ∨ (e.address = some a ∧ a ≠ "") := by
  rcases he : e.address with _ | b
  · simp [addEntryAddr, he]
  · by_cases hb : b = ""
    · subst hb
      simp only [addEntryAddr, he, if_pos rfl]
      constructor
      · exact Or.inl
      · rintro (hs | ⟨hba, hne⟩)
        · exact hs
        · injection hba with hba
          exact absurd hba.symm hne
    · simp only [addEntryAddr, he, if_neg hb, Finset.mem_insert]
      constructor
      · rintro (rfl | hs)
        · exact Or.inr ⟨rfl, hb⟩
        · exact Or.inl hs
      · rintro (hs | ⟨hba, _⟩)
        · exact Or.inr hs
        · injection hba with hba
          exact Or.inl hba.symm

theorem mem_foldl_addEntryAddr (l : List TxEntry) (s : Finset String) (a : String) :
    a ∈ l.foldl addEntryAddr s ↔ a ∈ s ∨ ∃ e ∈ l, e.address = some a ∧ a ≠ "" := by
  induction l generalizing s with
  | nil => simp
  | cons e l ih =>
      rw [List.foldl_cons, ih, mem_addEntryAddr]
      simp only [List.mem_cons]
      constructor
      · rintro ((hs | he) | ⟨e', he', hp⟩)
        · exact Or.inl hs
        · exact Or.inr ⟨e, Or.inl rfl, he⟩
        · exact Or.inr ⟨e', Or.inr he', hp⟩
      · rintro (hs | ⟨e', (rfl | he'), hp⟩)
        · exact Or.inl (Or.inl hs)
        · exact Or.inl (Or.inr hp)
        · exact Or.inr ⟨e', he', hp⟩

theorem mem_addTxAddrs (s : Finset String) (tx : BlockTx) (a : String) :
    a ∈ addTxAddrs s tx ↔
      a ∈ s ∨ ((∃ e ∈ tx.inputs, e.address = some a ∧ a ≠ "")
        ∨ ∃ e ∈ tx.outputs, e.address = some a ∧ a ≠ "") := by
  unfold addTxAddrs
  rw [mem_foldl_addEntryAddr, mem_foldl_addEntryAddr, or_assoc]

theorem mem_extractAddressesFromBlock (b : Block) (a : String) :
    a ∈ extractAddressesFromBlock b ↔ blockMentionsAddress b a := by
  unfold extractAddressesFromBlock blockMentionsAddress
  have main : ∀ (txs : List BlockTx) (s : Finset String),
      a ∈ txs.foldl addTxAddrs s ↔
        a ∈ s ∨ (a ≠ "" ∧ ∃ tx ∈ txs,
          (∃ e ∈ tx.inputs, e.address = some a) ∨ (∃ e ∈ tx.outputs, e.address = some a)) := by
    intro txs
    induction txs with
    | nil => simp
    | cons tx txs ih =>
        intro s
        rw [List.foldl_cons, ih, mem_addTxAddrs]
        simp only [List.mem_cons]
        constructor
        · rintro ((hs | hin) | ⟨hne, tx', htx', hp⟩)
          · exact Or.inl hs
          · rcases hin with ⟨e, he, hea, hne⟩ | ⟨e, he, hea, hne⟩
            · exact Or.inr ⟨hne, tx, Or.inl rfl, Or.inl ⟨e, he, hea⟩⟩
            · exact Or.inr ⟨hne, tx, Or.inl rfl, Or.inr ⟨e, he, hea⟩⟩
          · exact Or.inr ⟨hne, tx', Or.inr htx', hp⟩
        · rintro (hs | ⟨hne, tx', (rfl | htx'), hp⟩)
          · exact Or.inl (Or.inl hs)
          · rcases hp with ⟨e, he, hea⟩ | ⟨e, he, hea⟩
            · exact Or.inl (Or.inr (Or.inl ⟨e, he, hea, hne⟩))
            · exact Or.inl (Or.inr (Or.inr ⟨e, he, hea, hne⟩))
          · exact Or.inr ⟨hne, tx', htx', hp⟩
  rw [main]
  simp

/-! ## Claim C1 -/

/-- C1: for every block `B` and tracked set `T`, `_process_block` computes
exactly `extractAddresses(B) ∩ T` — where `extractAddresses(B)` contains
precisely the addresses carried by some input or output entry of some
transaction of `B`, entries without an address being skipped — and the
movement analysis is attempted exactly for the addresses of that
intersection. -/
theorem processBlock_matches_intersection (b : Block) (T : Finset String) (a : String) :
    (a ∈ activeDormant b T ↔ blockMentionsAddress b a ∧ a ∈ T)
      ∧ (a ∈ attemptedAddresses b T ↔ a ∈ activeDormant b T) := by
  constructor
  · rw [activeDormant, Finset.mem_inter, mem_extractAddressesFromBlock]
  · exact Finset.mem_sort (α := String) (fun x y => x ≤ y)

/-! ## Claim C3 -/

/-- C3: `_calculate_severity` equals the sum of the three independently
capped bucket scores of the specification (inclusive lower bounds) mapped
through the CRITICAL/HIGH/MEDIUM/LOW thresholds. -/
theorem calculateSeverity_eq_spec (n : Nat) (v d : ℚ) :
    calculateSeverity n v d =
      severityOfScoreSpec (walletScoreSpec n + valueScoreSpec v + dormancyScoreSpec d) := by
  have h1 : (if 20 ≤ n then 40 else if 10 ≤ n then 30 else if 5 ≤ n then 20 else 10)
      = walletScoreSpec n := by
    unfold walletScoreSpec
    split_ifs <;> omega
  have h2 : (if (10000 : ℚ) ≤ v then 40 else if (1000 : ℚ) ≤ v then 30
      else if (100 : ℚ) ≤ v then 20 else 10) = valueScoreSpec v := by
    unfold valueScoreSpec
    split_ifs <;> first | rfl | linarith
  have h3 : (if (10 : ℚ) ≤ d then 20 else if (5 : ℚ) ≤ d then 15
      else if (2 : ℚ) ≤ d then 10 else 5) = dormancyScoreSpec d := by
    unfold dormancyScoreSpec
    split_ifs <;> first | rfl | linarith
  unfold calculateSeverity
  rw [h1, h2, h3]
  rfl

/-! ## Claim C2 -/

/-- C2: the claim requires that 5 activities with `dormancy_days = 3650` and
600 BTC total balance, all within one 30-minute window, yield a
`dormant_wallet_surge` pattern of severity HIGH and confidence 0.5, the
buckets being the transaction time truncated to the window granularity.  The
code does not truncate: `timedelta(minutes=t.minute % window.total_seconds()
/ 60, ...)` subtracts `t.minute` *seconds* (plus seconds and microseconds),
so the five activities at minutes 0/5/10/15/20 of the same 30-minute window
land in five distinct buckets of size 1 and `analyze_recent_activity`
returns no pattern at all — contradicting the claim and the source's own
"Round down to nearest window" comment.  The thresholds themselves are
sound: the same batch with all five transaction times identical produces
exactly the claimed pattern (severity HIGH from score 20+20+20 = 60,
confidence `min(0.95, 5/10) = 0.5`). -/
theorem dormantSurge_grouping_bug :
    analyzeRecentActivity defaultConfig surgeSpreadActs = []
      ∧ analyzeRecentActivity defaultConfig surgeSameTimeActs =
          [{ pattern_type := "dormant_wallet_surge"
           , severity := "HIGH"
           , confidence := 1 / 2
           , affected_wallets := ["addr1", "addr2", "addr3", "addr4", "addr5"]
           , total_value := 60000000000
           , time_window := 1800 }] := by
  constructor
  · rfl
  · have hsurge : detectDormantWalletSurge defaultConfig surgeSameTimeActs
        = some (mkSurgePattern defaultConfig surgeSameTimeActs) := rfl
    have hconc : detectValueConcentration defaultConfig surgeSameTimeActs = none := rfl
    have hstat : detectStatisticalAnomalies surgeSameTimeActs = [] := rfl
    have hqual : coordGroupQualifies surgeSameTimeActs = false := by
      norm_num [coordGroupQualifies, ratMean, ratVar, surgeSameTimeActs, surgeAct]
    have hgrp : groupByTimeWindow defaultConfig surgeSameTimeActs (some 10)
        = [((0 : Int), surgeSameTimeActs)] := rfl
    have hcoord : detectCoordinatedMovements defaultConfig surgeSameTimeActs = none := by
      unfold detectCoordinatedMovements
      rw [if_neg (by decide : ¬ (surgeSameTimeActs.length < 3)), hgrp]
      simp [List.find?, hqual]
    have hpat : mkSurgePattern defaultConfig surgeSameTimeActs
        = { pattern_type := "dormant_wallet_surge"
          , severity := "HIGH"
          , confidence := 1 / 2
          , affected_wallets := ["addr1", "addr2", "addr3", "addr4", "addr5"]
          , total_value := 60000000000
          , time_window := 1800 } := by
      norm_num [mkSurgePattern, ratMean, calculateSeverity, severityOfScore, min_def,
        surgeSameTimeActs, surgeAct, defaultConfig, EmergencyPattern.mk.injEq]
    rw [analyzeRecentActivity, hsurge, hconc, hstat, hcoord, hpat]
    rfl

/-! ## Claim C6 -/

/-- C6: with at least 3 high-value activities (balance ≥ 100×10⁸ satoshis) in
the batch, `_detect_value_concentration` emits a pattern — always of type
`high_value_concentration`, severity CRITICAL, confidence 0.9 — if and only
if the span between the maximum and minimum transaction times of the
high-value activities is at most the emergency window. -/
theorem valueConcentration_iff_within_window (cfg : DetectorConfig)
    (acts : List WalletActivity) (h3 : 3 ≤ (highValueActivities acts).length) :
    ((detectValueConcentration cfg acts).isSome ↔
        hvTimeSpan (highValueActivities acts)
          ≤ cfg.emergencyWindowMinutes * 60 * microsPerSecond)
      ∧ ∀ p, detectValueConcentration cfg acts = some p →
          p.pattern_type = "high_value_concentration"
            ∧ p.severity = "CRITICAL" ∧ p.confidence = 9 / 10 := by
  unfold detectValueConcentration
  rw [if_neg (by omega : ¬ (highValueActivities acts).length < 3)]
  by_cases hs : hvTimeSpan (highValueActivities acts)
      ≤ cfg.emergencyWindowMinutes * 60 * microsPerSecond
  · rw [if_pos hs]
    refine ⟨by simp [hs], ?_⟩
    intro p hp
    cases hp
    exact ⟨rfl, rfl, rfl⟩
  · rw [if_neg hs]
    exact ⟨by simp [hs], fun p hp => Option.noConfusion hp⟩

/-- Witness for C6 at the default 30-minute window: the three 100-BTC
activities within 5 minutes satisfy the hypothesis and the span condition, so
a pattern is emitted. -/
theorem valueConcentration_iff_within_window_witness :
    3 ≤ (highValueActivities hvActs).length
      ∧ (((detectValueConcentration defaultConfig hvActs).isSome ↔
            hvTimeSpan (highValueActivities hvActs)
              ≤ defaultConfig.emergencyWindowMinutes * 60 * microsPerSecond)
          ∧ ∀ p, detectValueConcentration defaultConfig hvActs = some p →
              p.pattern_type = "high_value_concentration"
                ∧ p.severity = "CRITICAL" ∧ p.confidence = 9 / 10) :=
  ⟨by decide, valueConcentration_iff_within_window defaultConfig hvActs (by decide)⟩

/-! ## Claim C4 -/

/-- C4: the claim expects a failing first adapter to be recorded as one
failure for it and one success for the fallback adapter, per provider.  The
source's `get_block` is a placeholder whose loop body returns
`{"height": h, "timestamp": now, "transactions": []}` without contacting any
provider, so no adapter can fail there, no fallback can be observed, and the
request counters are never touched by a `get_block` call (for any adapter
list, height and prior counters); moreover `get_request_stats` carries only
aggregate `successful`/`failed` counters — there is no per-provider
attribution anywhere.  Evaluated at the claim's scenario (two adapters,
fresh counters): the call returns the placeholder block and the statistics
still report zero successes and zero failures. -/
theorem getBlock_placeholder_no_stats :
    (∀ (apis : List String) (now height : Nat) (c : RequestCounts),
        (getBlockMgr apis now height c).2 = c)
      ∧ getBlockMgr ["BlockchairAPI", "BlockCypherAPI"] 0 820000
            { successful := 0, failed := 0, total := 0 }
          = (some { height := 820000, timestamp := 0, transactions := [] },
             { successful := 0, failed := 0, total := 0 })
      ∧ (getRequestStats ["BlockchairAPI", "BlockCypherAPI"]
            { successful := 0, failed := 0, total := 0 }).successful = 0
      ∧ (getRequestStats ["BlockchairAPI", "BlockCypherAPI"]
            { successful := 0, failed := 0, total := 0 }).failed = 0 := by
  refine ⟨?_, rfl, rfl, rfl⟩
  intro apis now height c
  cases apis <;> rfl

/-! ## Claim C7 -/

theorem getAddressInfo_all_errors (rs : List (Except Unit AddressInfo))
    (c : RequestCounts) (h : ∀ r ∈ rs, r = Except.error ()) :
    (getAddressInfo rs c).1 = none := by
  induction rs with
  | nil => rfl
  | cons r rest ih =>
      obtain rfl := h r (List.mem_cons_self r rest)
      exact ih (fun x hx => h x (List.mem_cons_of_mem _ hx))

theorem getAddressesBatch_all_errors (n : Nat)
    (rs : List (Except Unit (List AddressInfo))) (c : RequestCounts)
    (h : ∀ r ∈ rs, r = Except.error ()) :
    (getAddressesBatch n rs c).1 = [] := by
  induction rs with
  | nil => rfl
  | cons r rest ih =>
      obtain rfl := h r (List.mem_cons_self r rest)
      exact ih (fun x hx => h x (List.mem_cons_of_mem _ hx))

theorem getRecentTransactions_all_errors (rs : List (Except Unit (List ProviderTx)))
    (h : ∀ r ∈ rs, r = Except.error ()) :
    getRecentTransactions rs = [] := by
  induction rs with
  | nil => rfl
  | cons r rest ih =>
      obtain rfl := h r (List.mem_cons_self r rest)
      exact ih (fun x hx => h x (List.mem_cons_of_mem _ hx))

/-- C7: when every adapter in the ordered list fails with a provider error,
the coordinator's single lookup returns `None`, the batch lookup returns
`[]`, and the recent-transactions lookup returns `[]` — an explicit
"unavailable" result instead of a propagated exception. -/
theorem allProvidersFail_unavailable (rs1 : List (Except Unit AddressInfo))
    (n : Nat) (rs2 : List (Except Unit (List AddressInfo)))
    (rs3 : List (Except Unit (List ProviderTx))) (c1 c2 : RequestCounts)
    (h1 : ∀ r ∈ rs1, r = Except.error ())
    (h2 : ∀ r ∈ rs2, r = Except.error ())
    (h3 : ∀ r ∈ rs3, r = Except.error ()) :
    (getAddressInfo rs1 c1).1 = none
      ∧ (getAddressesBatch n rs2 c2).1 = []
      ∧ getRecentTransactions rs3 = [] :=
  ⟨getAddressInfo_all_errors rs1 c1 h1,
   getAddressesBatch_all_errors n rs2 c2 h2,
   getRecentTransactions_all_errors rs3 h3⟩

/-- Witness for C7: two failing adapters for the single lookup, one for the
batch, two for recent transactions. -/
theorem allProvidersFail_unavailable_witness :
    ((∀ r ∈ [Except.error () , Except.error ()] , r = (Except.error () : Except Unit AddressInfo))
      ∧ (∀ r ∈ [Except.error ()] , r = (Except.error () : Except Unit (List AddressInfo)))
      ∧ (∀ r ∈ [Except.error () , Except.error ()] , r = (Except.error () : Except Unit (List ProviderTx))))
    ∧ ((getAddressInfo [Except.error (), Except.error ()]
          { successful := 0, failed := 0, total := 0 }).1 = none
      ∧ (getAddressesBatch 3 [Except.error ()]
          { successful := 1, failed := 2, total := 0 }).1 = []
      ∧ getRecentTransactions [Except.error (), Except.error ()] = []) :=
  ⟨⟨by simp, by simp, by simp⟩,
   allProvidersFail_unavailable [Except.error (), Except.error ()] 3 [Except.error ()]
     [Except.error (), Except.error ()] { successful := 0, failed := 0, total := 0 }
     { successful := 1, failed := 2, total := 0 } (by simp) (by simp) (by simp)⟩

/-! ## Claim C5 -/

theorem lookupAlert_setAlert (l : List (String × Nat)) (k : String) (v : Nat) :
    lookupAlert (setAlert l k v) k = some v := by
  induction l with
  | nil => simp [setAlert, lookupAlert]
  | cons p rest ih =>
      by_cases hp : p.1 = k
      · simp [setAlert, hp, lookupAlert]
      · simp only [setAlert, lookupAlert]
        rw [if_neg hp, lookupAlert, if_neg hp]
        exact ih

/-- C5: for emissions sharing one deduplication key: a first emission on a
fresh key is delivered and records its time; a second emission within the
cooldown is suppressed and leaves the recorded time (the cooldown clock)
untouched; a third emission at or after the expiry of the cooldown measured
from the *delivered* emission is delivered again. -/
theorem alertGate_cooldown (cooldown : Nat) (recent : List (String × Nat))
    (a0 a1 a2 : NotificationAlert) (t0 t1 t2 : Nat)
    (hk1 : alertKey a1 = alertKey a0) (hk2 : alertKey a2 = alertKey a0)
    (hfresh : lookupAlert recent (alertKey a0) = none)
    (hwithin : (t1 : Int) - (t0 : Int) < (cooldown : Int))
    (helapsed : (cooldown : Int) ≤ (t2 : Int) - (t0 : Int)) :
    (shouldSendAlert cooldown recent a0 t0).1 = true
      ∧ (shouldSendAlert cooldown (shouldSendAlert cooldown recent a0 t0).2 a1 t1).1 = false
      ∧ (shouldSendAlert cooldown (shouldSendAlert cooldown recent a0 t0).2 a1 t1).2
          = (shouldSendAlert cooldown recent a0 t0).2
      ∧ (shouldSendAlert cooldown
          (shouldSendAlert cooldown (shouldSendAlert cooldown recent a0 t0).2 a1 t1).2
          a2 t2).1 = true := by
  have e0 : shouldSendAlert cooldown recent a0 t0
      = (true, setAlert recent (alertKey a0) t0) := by
    unfold shouldSendAlert
    rw [hfresh]
  have l1 : lookupAlert (setAlert recent (alertKey a0) t0) (alertKey a1) = some t0 := by
    rw [hk1]
    exact lookupAlert_setAlert recent (alertKey a0) t0
  have e1 : shouldSendAlert cooldown (setAlert recent (alertKey a0) t0) a1 t1
      = (false, setAlert recent (alertKey a0) t0) := by
    unfold shouldSendAlert
    rw [l1]
    exact if_pos hwithin
  have l2 : lookupAlert (setAlert recent (alertKey a0) t0) (alertKey a2) = some t0 := by
    rw [hk2]
    exact lookupAlert_setAlert recent (alertKey a0) t0
  have e2 : shouldSendAlert cooldown (setAlert recent (alertKey a0) t0) a2 t2
      = (true, setAlert (setAlert recent (alertKey a0) t0) (alertKey a2) t2) := by
    unfold shouldSendAlert
    rw [l2]
    exact if_neg (not_lt.mpr helapsed)
  rw [e0]
  rw [e1]
  rw [e2]
  exact ⟨rfl, rfl, rfl, rfl⟩

/-- Witness for C5 at the default 30-minute cooldown: emissions at 0 min,
1 min (suppressed) and 30 min (delivered). -/
theorem alertGate_cooldown_witness :
    (alertKey c5Alert = alertKey c5Alert
      ∧ lookupAlert [] (alertKey c5Alert) = none
      ∧ ((60000000 : Int) - (0 : Int) < (defaultCooldownMicros : Int))
      ∧ ((defaultCooldownMicros : Int) ≤ (1800000000 : Int) - (0 : Int)))
    ∧ ((shouldSendAlert defaultCooldownMicros [] c5Alert 0).1 = true
      ∧ (shouldSendAlert defaultCooldownMicros
          (shouldSendAlert defaultCooldownMicros [] c5Alert 0).2 c5Alert 60000000).1 = false
      ∧ (shouldSendAlert defaultCooldownMicros
          (shouldSendAlert defaultCooldownMicros [] c5Alert 0).2 c5Alert 60000000).2
          = (shouldSendAlert defaultCooldownMicros [] c5Alert 0).2
      ∧ (shouldSendAlert defaultCooldownMicros
          (shouldSendAlert defaultCooldownMicros
            (shouldSendAlert defaultCooldownMicros [] c5Alert 0).2 c5Alert 60000000).2
          c5Alert 1800000000).1 = true) :=
  ⟨⟨rfl, rfl, by decide, by decide⟩,
   alertGate_cooldown defaultCooldownMicros [] c5Alert c5Alert c5Alert 0 60000000 1800000000
     rfl rfl rfl (by decide) (by decide)⟩

/-! ## Monitor state-machine lemmas -/

theorem checkNewBlocks_untruthy {μ : Type} (e : CallEnv μ) (s : MonitorState)
    (hf : heightTruthy s.lastBlockHeight = false) :
    checkNewBlocks e s = ([], { s with lastBlockHeight := e.tip }) := by
  unfold checkNewBlocks
  rw [hf]
  rfl

theorem checkNewBlocks_no_tip {μ : Type} (e : CallEnv μ) (s : MonitorState)
    (ht : heightTruthy s.lastBlockHeight = true) (htip : e.tip = none) :
    checkNewBlocks e s = ([], s) := by
  unfold checkNewBlocks
  rw [ht, htip]
  rfl

theorem checkNewBlocks_tip_behind {μ : Type} (e : CallEnv μ) (s : MonitorState)
    (t h : Nat) (htip : e.tip = some t) (hlast : s.lastBlockHeight = some h)
    (h0 : h ≠ 0) (hle : t ≤ h) :
    checkNewBlocks e s = ([], s) := by
  unfold checkNewBlocks
  have ht : heightTruthy s.lastBlockHeight = true := by
    rw [hlast]
    simpa [heightTruthy] using h0
  rw [ht, htip, hlast]
  simp only [if_neg (by omega : ¬ h < t)]
  simp

theorem checkNewBlocks_tip_ahead {μ : Type} (e : CallEnv μ) (s : MonitorState)
    (t h : Nat) (htip : e.tip = some t) (hlast : s.lastBlockHeight = some h)
    (h0 : h ≠ 0) (hlt : h < t) :
    checkNewBlocks e s =
      (((List.range' (h + 1) (t - h)).map
          (fun hh => processBlock s.dormantAddresses e.analyze (e.getBlock hh))).flatten,
       { s with lastBlockHeight := some t }) := by
  unfold checkNewBlocks
  have ht : heightTruthy s.lastBlockHeight = true := by
    rw [hlast]
    simpa [heightTruthy] using h0
  rw [ht, htip, hlast]
  simp only [if_pos hlt]
  simp

theorem heightTruthy_false_getD {l : Option Nat} (hf : heightTruthy l = false) :
    l.getD 0 = 0 := by
  cases l with
  | none => rfl
  | some h =>
      have : h = 0 := by simpa [heightTruthy] using hf
      simp [this]

theorem heightMeasure_monitorStep {μ : Type} (e : CallEnv μ) (s : MonitorState) :
    heightMeasure s ≤ heightMeasure (monitorStep s e) := by
  by_cases ht : heightTruthy s.lastBlockHeight
  · rcases htip : e.tip with _ | t
    · rw [monitorStep, checkNewBlocks_no_tip e s ht htip]
    · rcases hlast : s.lastBlockHeight with _ | h
      · rw [hlast, heightTruthy] at ht
        exact absurd ht (by simp)
      · have h0 : h ≠ 0 := by
          rw [hlast] at ht
          simpa [heightTruthy] using ht
        by_cases hlt : h < t
        · rw [monitorStep, checkNewBlocks_tip_ahead e s t h htip hlast h0 hlt]
          simp [heightMeasure, hlast]
          omega
        · rw [monitorStep, checkNewBlocks_tip_behind e s t h htip hlast h0 (by omega)]
  · rw [monitorStep, checkNewBlocks_untruthy e s (by simpa using ht)]
    have : heightMeasure s = 0 := heightTruthy_false_getD (by simpa using ht)
    rw [this]
    exact Nat.zero_le _

theorem heightMeasure_runMonitor {μ : Type} (envs : List (CallEnv μ)) (s : MonitorState) :
    heightMeasure s ≤ heightMeasure (runMonitor envs s) := by
  induction envs generalizing s with
  | nil => exact Nat.le_refl _
  | cons e rest ih =>
      exact Nat.le_trans (heightMeasure_monitorStep e s) (ih (monitorStep s e))

/-! ## Claim C8 -/

/-- C8: across any sequence of `check_new_blocks` calls (any reported tips,
including unavailable ones), `last_block_height` is non-decreasing once set:
whenever it holds `h` after some prefix of calls and `h'` after a longer
prefix, `h ≤ h'`. -/
theorem lastBlockHeight_monotone {μ : Type} (envs1 envs2 : List (CallEnv μ))
    (s : MonitorState) (h h' : Nat)
    (H1 : (runMonitor envs1 s).lastBlockHeight = some h)
    (H2 : (runMonitor (envs1 ++ envs2) s).lastBlockHeight = some h') : h ≤ h' := by
  have hsplit : runMonitor (envs1 ++ envs2) s = runMonitor envs2 (runMonitor envs1 s) := by
    unfold runMonitor
    exact List.foldl_append monitorStep s envs1 envs2
  have hmono := heightMeasure_runMonitor envs2 (runMonitor envs1 s)
  rw [hsplit] at H2
  unfold heightMeasure at hmono
  rw [H1, H2] at hmono
  simpa using hmono

/-- Witness for C8: starting unset, a call with tip 3 sets the height to 3
and a further call with tip 5 advances it to 5, with 3 ≤ 5. -/
theorem lastBlockHeight_monotone_witness :
    (runMonitor [unitEnv (some 3)] (monState none)).lastBlockHeight = some 3
      ∧ (runMonitor ([unitEnv (some 3)] ++ [unitEnv (some 5)])
          (monState none)).lastBlockHeight = some 5
      ∧ 3 ≤ 5 :=
  ⟨rfl, rfl,
   lastBlockHeight_monotone [unitEnv (some 3)] [unitEnv (some 5)]
     (monState none) 3 5 rfl rfl⟩

/-! ## Claim C9 -/

/-- C9, corrected: with `last_block_height` set and the provider reporting
the same tip on two consecutive calls, the second call always returns an
empty movement list and leaves the state untouched; the first call does too
provided the tip does not exceed the stored height.  (As literally stated —
requiring *both* calls to be no-ops whenever the tips merely coincide — the
claim fails: see `checkNewBlocks_same_tip_cex`.) -/
theorem checkNewBlocks_same_tip {μ : Type} (e1 e2 : CallEnv μ) (s : MonitorState)
    (t h : Nat) (htip1 : e1.tip = some t) (htip2 : e2.tip = some t)
    (hset : s.lastBlockHeight = some h) :
    (checkNewBlocks e2 (checkNewBlocks e1 s).2).1 = ([] : List μ)
      ∧ (checkNewBlocks e2 (checkNewBlocks e1 s).2).2 = (checkNewBlocks e1 s).2
      ∧ (t ≤ h → (checkNewBlocks e1 s).1 = ([] : List μ) ∧ (checkNewBlocks e1 s).2 = s) := by
  by_cases h0 : h = 0
  · subst h0
    have hf : heightTruthy s.lastBlockHeight = false := by
      rw [hset]
      rfl
    have e1eq := checkNewBlocks_untruthy e1 s hf
    rw [e1eq]
    by_cases t0 : t = 0
    · subst t0
      have hf1 : heightTruthy ({ s with lastBlockHeight := e1.tip } : MonitorState).lastBlockHeight
          = false := by
        rw [htip1]
        rfl
      have e2eq := checkNewBlocks_untruthy e2 { s with lastBlockHeight := e1.tip } hf1
      rw [e2eq]
      refine ⟨rfl, ?_, ?_⟩
      · simp [htip1, htip2]
      · intro _
        refine ⟨rfl, ?_⟩
        rw [htip1, ← hset]
    · have hset1 : ({ s with lastBlockHeight := e1.tip } : MonitorState).lastBlockHeight
          = some t := by rw [htip1]
      have e2eq := checkNewBlocks_tip_behind e2 { s with lastBlockHeight := e1.tip }
        t t htip2 hset1 t0 (Nat.le_refl t)
      rw [e2eq]
      exact ⟨rfl, rfl, fun hle => absurd hle (by omega)⟩
  · by_cases hlt : h < t
    · have e1eq := checkNewBlocks_tip_ahead e1 s t h htip1 hset h0 hlt
      rw [e1eq]
      have hset1 : ({ s with lastBlockHeight := some t } : MonitorState).lastBlockHeight
          = some t := rfl
      have e2eq := checkNewBlocks_tip_behind e2 { s with lastBlockHeight := some t }
        t t htip2 hset1 (by omega) (Nat.le_refl t)
      rw [e2eq]
      exact ⟨rfl, rfl, fun hle => absurd hle (by omega)⟩
    · have e1eq := checkNewBlocks_tip_behind e1 s t h htip1 hset h0 (by omega)
      rw [e1eq]
      have e2eq := checkNewBlocks_tip_behind e2 s t h htip2 hset h0 (by omega)
      rw [e2eq]
      exact ⟨rfl, rfl, fun _ => ⟨rfl, rfl⟩⟩

/-- Witness for C9: state with height 7, both calls reporting tip 5 (≤ 7):
both calls return no movements and leave the state unchanged. -/
theorem checkNewBlocks_same_tip_witness :
    (checkNewBlocks (unitEnv (some 5))
        (checkNewBlocks (unitEnv (some 5)) (monState (some 7))).2).1 = ([] : List Unit)
      ∧ (checkNewBlocks (unitEnv (some 5))
          (checkNewBlocks (unitEnv (some 5)) (monState (some 7))).2).2
          = (checkNewBlocks (unitEnv (some 5)) (monState (some 7))).2
      ∧ (5 ≤ 7 →
          (checkNewBlocks (unitEnv (some 5)) (monState (some 7))).1 = ([] : List Unit)
          ∧ (checkNewBlocks (unitEnv (some 5)) (monState (some 7))).2 = monState (some 7)) :=
  checkNewBlocks_same_tip (unitEnv (some 5)) (unitEnv (some 5))
    (monState (some 7)) 5 7 rfl rfl rfl

/-- Counterexample for C9 as stated: state with height 100 and both calls
reporting tip 105 (the same tip both times, `last_block_height` set).  The
first call advances the height from 100 to 105, so "leaves
lastProcessedHeight unchanged" fails even though both movement lists are
empty. -/
theorem checkNewBlocks_same_tip_cex :
    ¬ ((checkNewBlocks (unitEnv (some 105)) (monState (some 100))).1 = ([] : List Unit)
        ∧ (checkNewBlocks (unitEnv (some 105))
            (checkNewBlocks (unitEnv (some 105)) (monState (some 100))).2).1 = ([] : List Unit)
        ∧ (checkNewBlocks (unitEnv (some 105))
            (monState (some 100))).2.lastBlockHeight = some 100
        ∧ (checkNewBlocks (unitEnv (some 105))
            (checkNewBlocks (unitEnv (some 105))
              (monState (some 100))).2).2.lastBlockHeight = some 100) := by
  intro hc
  exact absurd hc.2.2.1 (by decide)

/-! ## Claim C10 -/

/-- C10, corrected: when the tip lookup is unavailable (`None`),
`check_new_blocks` returns the empty movement list and consults no block or
analysis oracle; `last_block_height` is left exactly as it was *unless* it
held height 0 — which the code's `if not self.last_block_height` test
conflates with unset — in which case it is overwritten with the unavailable
value and becomes unset.  (As literally stated — "leaves it exactly as it
was" for every state — the claim fails at height 0: see
`checkNewBlocks_unavailable_cex`.) -/
theorem checkNewBlocks_unavailable {μ : Type} (e : CallEnv μ) (s : MonitorState)
    (htip : e.tip = none) :
    checkNewBlocks e s =
      ([], { s with lastBlockHeight :=
               if heightTruthy s.lastBlockHeight then s.lastBlockHeight else none }) := by
  by_cases ht : heightTruthy s.lastBlockHeight
  · rw [checkNewBlocks_no_tip e s ht htip, if_pos ht]
  · rw [checkNewBlocks_untruthy e s (by simpa using ht), htip,
      if_neg ht]

/-- Witness for C10: with the tip unavailable and the height set to 7, the
call returns no movements and keeps the height. -/
theorem checkNewBlocks_unavailable_witness :
    checkNewBlocks (unitEnv none) (monState (some 7))
      = ([], { monState (some 7) with lastBlockHeight :=
                 if (heightTruthy (monState (some 7)).lastBlockHeight)
                 then (monState (some 7)).lastBlockHeight else none }) :=
  checkNewBlocks_unavailable (unitEnv none) (monState (some 7)) rfl

/-- Counterexample for C10 as stated: in the state holding height 0 (a value
the source's truthiness test treats as unset, while `get_stats` still
distinguishes `0` from `None` via `last_block_height is not None`), an
unavailable tip overwrites the stored `0` with `None` — the state is *not*
left exactly as it was. -/
theorem checkNewBlocks_unavailable_cex :
    ¬ ((checkNewBlocks (unitEnv none) (monState (some 0))).1 = ([] : List Unit)
        ∧ (checkNewBlocks (unitEnv none) (monState (some 0))).2.lastBlockHeight
          = (monState (some 0)).lastBlockHeight) := by
  intro hc
  exact absurd hc.2 (by decide)

end SatoshisEndgame
